import Mathlib

/-!
Verification of the XMCS embedded-project-brief generator (`src/app.py`).

The development shallowly embeds the program's core pieces:

* `toDashscope` — the message-normalization loop of `QwenChat._generate`
  (app.py lines 17–27);
* `extractContent`, `generateBody`, `qwenGenerate` — the response
  extraction, status checks and the uniform error envelope of
  `QwenChat._generate` (lines 29–73);
* `_get_general_info` (lines 100–154), `_get_mode_description`
  (lines 157–408) and `create_prompt` (lines 411–479) — the prompt
  composition engine, with every string literal transcribed byte-for-byte
  from the source;
* `generate_project` (lines 482–495) and `buttonHandler`
  (lines 502–533) — the orchestration glue, with the remote backend
  abstracted as a function argument and instrumented with an invocation
  counter.
-/

namespace XMCS

/-! ### Python `in` (substring containment) -/

/-- Boolean test that `pat` is a prefix of `l` (character lists). -/
def hasPrefixL : List Char → List Char → Bool
  | [], _ => true
  | _c :: _cs, [] => false
  | a :: pat, b :: l => a == b && hasPrefixL pat l

/-- Boolean test that `pat` occurs contiguously inside `l`;
this is Python's `pat in l` on strings. -/
def hasInfixL (pat : List Char) : List Char → Bool
  | [] => pat.isEmpty
  | b :: l => hasPrefixL pat (b :: l) || hasInfixL pat l

/-- Python's `kw in s` on strings, as an executable Bool. -/
def pyIn (kw s : String) : Bool := hasInfixL kw.data s.data

/-- Python's `kw in s` on strings, as a Prop (contiguous-substring). -/
def pyInP (kw s : String) : Prop := kw.data <:+: s.data

/-! ### The chat-model adapter (`QwenChat._generate`, app.py lines 16–73) -/

/-- A LangChain message handed to `QwenChat._generate`.  The source
branches on `isinstance(msg, SystemMessage / HumanMessage / AIMessage)`;
every other object falls into a default branch that stringifies it, so the
embedding carries that stringification `strRepr` directly. -/
inductive LCMessage where
  | system (content : String)
  | human (content : String)
  | ai (content : String)
  | other (strRepr : String)
deriving DecidableEq

/-- One element of the outgoing `dashscope_messages` list:
`{"role": ..., "content": ...}`. -/
structure DMessage where
  role : String
  content : String
deriving DecidableEq

/-- The message-conversion loop of `QwenChat._generate` (app.py 18–27):
iterate over the incoming messages in order, appending one dashscope
message per turn. -/
def toDashscope (messages : List LCMessage) : List DMessage :=
  messages.foldl (fun acc msg =>
    match msg with
    | .system c => acc ++ [⟨"system", c⟩]
    | .human c => acc ++ [⟨"user", c⟩]
    | .ai c => acc ++ [⟨"assistant", c⟩]
    | .other s => acc ++ [⟨"user", s⟩]) []

/-- The role/content a single turn is mapped to (specification-side
restatement of the four `isinstance` branches, used to compare with the
loop `toDashscope`). -/
def convertMsg : LCMessage → DMessage
  | .system c => ⟨"system", c⟩
  | .human c => ⟨"user", c⟩
  | .ai c => ⟨"assistant", c⟩
  | .other s => ⟨"user", s⟩

/-- The `message` dict of the first choice: field `content` is `some`
exactly when the `'content'` key is present. -/
structure ChoiceMsg where
  content : Option String
deriving DecidableEq

/-- An element of `output['choices']`: field `message` is `some` exactly
when the element is a dict containing key `'message'`. -/
structure Choice where
  message : Option ChoiceMsg
deriving DecidableEq

/-- The `output` substructure of a backend response.
`text` is `some t` when the `text` attribute is present with string
value `t` (an absent attribute, or a `None` value, is `none`);
`isDict` models `isinstance(output, dict)`; `choices` is `some l` when
the dict holds key `'choices'` with list value `l` (a non-list value
behaves like an absent key in the source's guard and is modelled
as `none`). -/
structure QwenOutput where
  text : Option String
  isDict : Bool
  choices : Option (List Choice)
deriving DecidableEq

/-- A raw backend response: status code, optional `message` attribute,
optional `output` attribute, and the `usage` mapping
(`getattr(response, 'usage', {})`). -/
structure QwenResponse where
  status_code : Nat
  message : Option String
  output : Option QwenOutput
  usage : List (String × Nat)
deriving DecidableEq

/-- The `ChatResult` assembled on success (app.py 66–70): the extracted
content plus `llm_output = {"token_usage": usage, "model_name": ...}`. -/
structure ChatResult where
  content : String
  token_usage : List (String × Nat)
  model_name : String
deriving DecidableEq

/-- The text-extraction block of `QwenChat._generate` (app.py 50–63):
first the direct `output.text` attribute guarded by Python truthiness
(present and non-empty), else the `choices[0]['message']['content']`
path guarded by the dict/list shape checks; `none` models `content`
remaining `None`. -/
def extractContent (output : QwenOutput) : Option String :=
  if output.text.getD "" ≠ "" then output.text
  else if output.isDict then
    match output.choices with
    | some (first :: _) =>
      match first.message with
      | some m => m.content
      | none => none
    | _ => none
  else none

/-- app.py line 40. -/
def errNone : String := "API 调用返回 None。请检查网络连接和API密钥。"

/-- app.py line 43: `f"API Error ({response.status_code}): {getattr(response, ...)}"`. -/
def errStatus (code : Nat) (message : Option String) : String :=
  "API Error (" ++ toString code ++ "): " ++ message.getD "Unknown error"

/-- app.py line 48. -/
def errNoOutput : String := "API 响应缺少 \x27output\x27 字段。"

/-- app.py line 63. -/
def errNoText : String := "无法从 API 响应中提取生成的文本内容。"

/-- app.py line 73: the single outer wrapper every adapter failure is
re-raised through. -/
def errEnvelope (detail : String) : String :=
  "调用 Qwen 模型时发生错误: " ++ detail

/-- The body of the `try:` block of `QwenChat._generate` (app.py 31–70),
after the request has been sent: `none` models `Generation.call`
returning `None`. -/
def generateBody (response : Option QwenResponse) : Except String ChatResult :=
  match response with
  | none => .error errNone
  | some r =>
    if r.status_code ≠ 200 then .error (errStatus r.status_code r.message)
    else
      match r.output with
      | none => .error errNoOutput
      | some output =>
        match extractContent output with
        | none => .error errNoText
        | some content => .ok ⟨content, r.usage, "qwen-plus"⟩

/-- `QwenChat._generate` (app.py 29–73): the `except` clause wraps any
failure of the body in the one `调用 Qwen 模型时发生错误: ...` envelope. -/
def qwenGenerate (response : Option QwenResponse) : Except String ChatResult :=
  match generateBody response with
  | .error e => .error (errEnvelope e)
  | .ok v => .ok v


/-! ### The prompt-composition engine (app.py lines 100–479) -/

/-- app.py 104-119: local `key_requirements` of `_get_general_info`; computed by the source but never used nor returned. -/
def key_requirements : String :=
  "\n    **特别注意（基于嵌入式课堂要求）：**\n    1. 按键功能明确：\n        - KEY0: 确定/启动按键\n        - KEY1: 调速/调方向/暂停按键（外部中断触发）\n        - KEY_UP: 计件传感器/模式切换\n    2. 显示要求：\n        - 上电初始界面显示系统名称和欢迎标语\n        - 主界面显示当前工作模式和运行参数\n        - 模式切换时更新主界面上显示的工作模式和运行参数\n    3. 功能要求：\n        - 支持暂停/恢复功能（按键中断处理）\n    4. 计时器使用：\n        - TIM3实现1.5秒定时和按键长按检测\n        - TIM2实现计数功能\n    "

/-- app.py line 122: the motor simple-voltage note. -/
def motorNote : String :=
  "电机模块使用简单转子马达，只需两个信号线控制电压方向，无需使能控制。电机通过pwm调速。"

/-- app.py 127-129: the display content-only note. -/
def displayNote : String :=
  "显示屏要求：\n  - 初始界面：第1行显示系统名称，第2行显示欢迎标语\n  - 主界面：第1行显示\x27Mode:[模式名]\x27，第2行显示运行参数"

/-- app.py 134-136: the timer note. -/
def timerNote : String :=
  "定时器配置：\n  - TIM3: 实现1.5秒定时，用于刷新界面和状态检测\n  - TIM2: 实现计数功能，记录关键参数"

/-- app.py 141-144: the external-interrupt note. -/
def interruptNote : String :=
  "外部中断：\n  - KEY1按键使用外部中断触发暂停功能\n  - 暂停时系统完全停止，界面不刷新\n  - 恢复时保持原有状态继续运行"

/-- app.py 159-175: line/conveyor template (keywords 流水线/传送带/生产线/装配线). -/
def lineModes : String × String :=
  ("\n            1. **手动控制模式**\n               - 用户直接控制设备运行\n               - 短按KEY1：循环调节电机速度（30%/50%/70%/90%四档）\n               - 短按KEY_UP：切换设备运行方向\n               - 指示灯：蓝色闪烁\n\n            2. **自动调节模式**\n               - 智能优化生产效率\n               - 系统每5秒自动计算最优工作参数\n               - KEY_UP作为传感器使用\n               - 指示灯：绿色常亮\n            ",
   "\n            3. **工作控制**\n               - 手动模式：用户根据需求调整工作参数\n               - 自动模式：系统基于传感器数据自动优化工作效率\n            ")

/-- app.py 178-200: rotating/washing template (keywords 洗衣机/搅拌机/旋转设备/脱水机). -/
def washModes : String × String :=
  ("\n            1. **低速模式**\n               - 轻柔工作状态\n               - 低转速（300-500 RPM）\n               - 适合精细处理\n               - 指示灯：绿色慢闪\n\n            2. **标准模式**\n               - 正常工作状态\n               - 标准转速（500-800 RPM）\n               - 平衡效率和能耗\n               - 指示灯：白色常亮\n\n            3. **高速模式**\n               - 高效工作状态\n               - 高转速（1000-1200 RPM）\n               - 最大生产效率\n               - 指示灯：红色闪烁\n            ",
   "\n            3. **工作控制**\n               - 不同模式对应预设工作参数\n               - 系统自动应用最合适的运行策略\n            ")

/-- app.py 203-226: ticketing template (keywords 票/售票/购票/验票/选座位). -/
def ticketModes : String × String :=
  ("\n            1. **售票模式**\n               - 主工作状态\n               - 处理票务销售\n               - 支持多种票型和支付方式\n               - 指示灯：绿色常亮\n\n            2. **查询模式**\n               - 信息查询状态\n               - 查看历史销售记录\n               - 分析票务数据\n               - 指示灯：蓝色闪烁\n\n            3. **维护模式**\n               - 系统维护状态\n               - 管理员配置系统参数\n               - 系统升级和维护\n               - 指示灯：红色闪烁\n            ",
   "\n            3. **工作控制**\n               - 售票模式：完成票务处理流程\n               - 查询模式：提供信息查询服务\n               - 维护模式：系统维护和设置\n            ")

/-- app.py 229-258: elevator template (keywords 电梯/升降机/垂直运输). -/
def elevatorModes : String × String :=
  ("\n            1. **标准运行模式**\n               - 正常工作状态\n               - 响应楼层呼叫\n               - 优化运输效率\n               - 指示灯：白色常亮\n\n            2. **节能运行模式**\n               - 低功耗运行状态\n               - 减少空载运行\n               - 延长设备寿命\n               - 指示灯：绿色慢闪\n\n            3. **高峰运行模式**\n               - 高效运输状态\n               - 优先响应高流量楼层\n               - 最大化运输效率\n               - 指示灯：红色闪烁\n\n            4. **维护模式**\n               - 系统维护状态\n               - 工程师调试和检修\n               - 指示灯：黄色闪烁\n            ",
   "\n            3. **工作控制**\n               - 标准模式：平衡效率和能耗\n               - 节能模式：低功耗运行\n               - 高峰模式：最大化运输效率\n               - 维护模式：系统调试和检修\n            ")

/-- app.py 261-291: smart-home template (keywords 家居/智能家居/家庭自动化). -/
def homeModes : String × String :=
  ("\n            1. **居家模式**\n               - 家庭成员在家状态\n               - 舒适环境设置\n               - 灯光和温度自动调节\n               - 指示灯：白色常亮\n\n            2. **离家模式**\n               - 家庭成员外出状态\n               - 节能安全设置\n               - 关闭非必要设备\n               - 指示灯：蓝色慢闪\n\n            3. **睡眠模式**\n               - 夜间休息状态\n               - 安静舒适环境\n               - 调暗灯光降低噪音\n               - 指示灯：紫色慢闪\n\n            4. **娱乐模式**\n               - 家庭娱乐状态\n               - 优化影音设备\n               - 调整灯光氛围\n               - 指示灯：彩色循环\n            ",
   "\n            3. **工作控制**\n               - 居家模式：舒适生活环境\n               - 离家模式：节能安全防护\n               - 睡眠模式：安静休息环境\n               - 娱乐模式：家庭娱乐优化\n            ")

/-- app.py 294-323: agriculture template (keywords 农业/温室/大棚/种植). -/
def farmModes : String × String :=
  ("\n            1. **自动灌溉模式**\n               - 智能浇水状态\n               - 根据土壤湿度调节\n               - 指示灯：蓝色常亮\n\n            2. **通风模式**\n               - 空气循环状态\n               - 调节温湿度\n               - 防止病虫害\n               - 指示灯：绿色慢闪\n\n            3. **补光模式**\n               - 光照增强状态\n               - 阴天或夜间补充光照\n               - 促进植物生长\n               - 指示灯：黄色闪烁\n\n            4. **监控模式**\n               - 环境监测状态\n               - 实时采集温湿度数据\n               - 生成生长报告\n               - 指示灯：白色闪烁\n            ",
   "\n            3. **工作控制**\n               - 灌溉模式：智能水分管理\n               - 通风模式：优化空气循环\n               - 补光模式：补充光照需求\n               - 监控模式：环境数据采集\n            ")

/-- app.py 326-356: parking template (keywords 停车场/车库/车位管理). -/
def parkingModes : String × String :=
  ("\n            1. **入场模式**\n               - 车辆进入管理\n               - 车牌识别\n               - 车位分配\n               - 指示灯：绿色常亮\n\n            2. **出场模式**\n               - 车辆离开管理\n               - 费用计算\n               - 支付处理\n               - 指示灯：蓝色闪烁\n\n            3. **寻车模式**\n               - 帮助车主找车\n               - 车位导航\n               - 最短路径规划\n               - 指示灯：黄色闪烁\n\n            4. **维护模式**\n               - 系统维护状态\n               - 设备检修\n               - 数据备份\n               - 指示灯：红色闪烁\n            ",
   "\n            3. **工作控制**\n               - 入场模式：车辆进入管理\n               - 出场模式：车辆离开处理\n               - 寻车模式：车位导航服务\n               - 维护模式：系统检修维护\n            ")

/-- app.py 359-388: lighting template (keywords 照明/灯光/路灯). -/
def lightingModes : String × String :=
  ("\n            1. **标准照明模式**\n               - 正常工作状态\n               - 固定亮度设置\n               - 指示灯：白色常亮\n\n            2. **节能模式**\n               - 低功耗运行状态\n               - 根据环境光调节亮度\n               - 减少能耗\n               - 指示灯：绿色慢闪\n\n            3. **场景模式**\n               - 特殊场景设置\n               - 如聚会、阅读、观影等\n               - 自定义灯光效果\n               - 指示灯：彩色循环\n\n            4. **安全模式**\n               - 应急照明状态\n               - 断电时自动启用\n               - 提供基本照明\n               - 指示灯：红色闪烁\n            ",
   "\n            3. **工作控制**\n               - 标准模式：常规照明需求\n               - 节能模式：智能亮度调节\n               - 场景模式：特殊场景灯光\n               - 安全模式：应急照明保障\n            ")

/-- app.py 392-408: the generic two-mode (manual/automatic) fallback template. -/
def defaultModes : String × String :=
  ("\n            1. **手动模式**\n               - 标准工作状态\n               - 通过按键调整工作参数及模式\n               - 适合常规工作场景\n               - 指示灯：白色常亮\n\n            2. **自动模式**\n               - 通过定时器自动调整工作参数及模式\n               - 指示灯：绿色慢闪\n\n            ",
   "\n            3. **工作控制**\n               - 使用KEY_UP在预设模式间切换\n               - KEY1用于微调工作参数\n               - 系统根据场景自动优化配置\n            ")

/-- Literal segment 0 of the `create_prompt` f-string (app.py 418-478). -/
def promptSeg0 : String :=
  "\n        你是一位嵌入式系统课程设计出题专家，请根据嵌入式课堂项目设计标准格式，编写一个基于"

/-- Literal segment 1 of the `create_prompt` f-string (app.py 418-478). -/
def promptSeg1 : String :=
  "的"

/-- Literal segment 2 of the `create_prompt` f-string (app.py 418-478). -/
def promptSeg2 : String :=
  "项目任务书。\n\n        **项目主题：**\n        "

/-- Literal segment 3 of the `create_prompt` f-string (app.py 418-478). -/
def promptSeg3 : String :=
  "\n\n        **主要功能：**\n        "

/-- Literal segment 4 of the `create_prompt` f-string (app.py 418-478). -/
def promptSeg4 : String :=
  "\n\n        **特殊要求：**\n        "

/-- Literal segment 5 of the `create_prompt` f-string (app.py 418-478). -/
def promptSeg5 : String :=
  "\n        "

/-- Literal segment 6 of the `create_prompt` f-string (app.py 418-478). -/
def promptSeg6 : String :=
  "\n        "

/-- Literal segment 7 of the `create_prompt` f-string (app.py 418-478). -/
def promptSeg7 : String :=
  "\n        "

/-- Literal segment 8 of the `create_prompt` f-string (app.py 418-478). -/
def promptSeg8 : String :=
  "\n\n        **请严格按照以下结构生成内容（使用中文，不使用Markdown）：**\n\n        ##### 一、任务题目\n        一种智能"

/-- Literal segment 9 of the `create_prompt` f-string (app.py 418-478). -/
def promptSeg9 : String :=
  "控制系统\n\n        ##### 二、控制功能\n        [用150-200字描述项目整体功能，突出核心控制逻辑和用户交互]\n\n        ##### 三、按键功能\n        | 按键名称        | 功能描述                                     |\n        |----------     |----------|\n        | KEY0          | 确定/启动按键<br>- 短按：启动/恢复控制<br>- 长按(2秒)：进入模式切换 |\n        | KEY1          | 多功能按键<br>- 短按：参数调节/功能选择<br>- 长按(>2秒)：暂停/恢复 |\n        | KEY_UP        | 传感器/选择器<br>- 正常工作时：信号输入<br>- 模式切换时：选项选择 |\n\n        ##### 四、工作模式\n        "

/-- Literal segment 10 of the `create_prompt` f-string (app.py 418-478). -/
def promptSeg10 : String :=
  "\n\n        ##### 五、具体控制要求\n        1. **初始界面显示**\n           - 上电后在显示屏第1行显示系统名称\""

/-- Literal segment 11 of the `create_prompt` f-string (app.py 418-478). -/
def promptSeg11 : String :=
  "\"\n           - 第2行显示欢迎标语\n           - 短按KEY0后进入主控界面\n\n        2. **模式切换控制**\n           - 使用KEY_UP在切换不同模式\n           - 显示屏显示新的工作模式和运行参数\n\n        "

/-- Literal segment 12 of the `create_prompt` f-string (app.py 418-478). -/
def promptSeg12 : String :=
  "\n\n        4. **暂停控制**\n           - 系统运行中按下KEY1立即暂停\n           - 界面冻结不再刷新\n           - 短按KEY0恢复暂停前状态继续运行\n\n        ##### 六、硬件引脚分配\n        | 引脚号 | 功能描述 | 类型 | 关联模块 | 用途说明 |\n        |--------|----------|------|----------|----------|\n        | ...    | ...      | ...  | ...      | ...      |\n\n        **设计约束：**\n        1. 只使用预定义的三个按键（KEY0/KEY1/KEY_UP）和两个LED（LED0/LED1）\n        2. 硬件引脚分配不包含显示屏相关引脚（如果使用显示屏）\n        3. 不包含电源、工作电压等基本因素\n        4. 按键功能明确无冲突\n    "

-- create_prompt body term order:
-- promptSeg0 ++ gen_info.modules_desc ++ promptSeg1 ++ theme ++ promptSeg2 ++ theme ++ promptSeg3 ++ fn ++ promptSeg4 ++ gen_info.motor_note ++ promptSeg5 ++ gen_info.display_note ++ promptSeg6 ++ gen_info.timer_note ++ promptSeg7 ++ gen_info.interrupt_note ++ promptSeg8 ++ theme ++ promptSeg9 ++ md.1 ++ promptSeg10 ++ theme ++ promptSeg11 ++ md.2 ++ promptSeg12

/-- The mapping returned by `_get_general_info` (app.py 148–154): exactly
these five keys, nothing else. -/
structure GeneralInfo where
  modules_desc : String
  motor_note : String
  display_note : String
  timer_note : String
  interrupt_note : String
deriving DecidableEq

/-- `_get_general_info(modules, theme, function)` (app.py 100–154):
joins the module names with 、 and toggles each advisory note on a
membership test of its trigger module; an untriggered note is the empty
string.  The `theme`/`function` parameters are accepted and ignored, as
in the source. -/
def _get_general_info (modules : List String) (theme fn : String) : GeneralInfo :=
  { modules_desc := String.intercalate "、" modules
    motor_note := if "电机" ∈ modules then motorNote else ""
    display_note := if "显示屏" ∈ modules then displayNote else ""
    timer_note := if "定时器" ∈ modules then timerNote else ""
    interrupt_note := if "外部中断" ∈ modules then interruptNote else "" }

/-- `any(kw in theme for kw in kws)`. -/
def anyKw (kws : List String) (theme : String) : Bool :=
  kws.any (fun kw => pyIn kw theme)

/-- `_get_mode_description(theme)` (app.py 157–408): the if/elif keyword
dispatch, returning the pair (mode description, work-control fragment);
the trailing `else` returns the generic two-mode fallback. -/
def _get_mode_description (theme : String) : String × String :=
  if anyKw ["流水线", "传送带", "生产线", "装配线"] theme then lineModes
  else if anyKw ["洗衣机", "搅拌机", "旋转设备", "脱水机"] theme then washModes
  else if anyKw ["票", "售票", "购票", "验票", "选座位"] theme then ticketModes
  else if anyKw ["电梯", "升降机", "垂直运输"] theme then elevatorModes
  else if anyKw ["家居", "智能家居", "家庭自动化"] theme then homeModes
  else if anyKw ["农业", "温室", "大棚", "种植"] theme then farmModes
  else if anyKw ["停车场", "车库", "车位管理"] theme then parkingModes
  else if anyKw ["照明", "灯光", "路灯"] theme then lightingModes
  else defaultModes

/-- The ordered (keyword set, template) table the dispatch of
`_get_mode_description` walks, in source order — the spec-side reading of
the if/elif chain as a first-match lookup. -/
def modeCategories : List (List String × (String × String)) :=
  [(["流水线", "传送带", "生产线", "装配线"], lineModes),
   (["洗衣机", "搅拌机", "旋转设备", "脱水机"], washModes),
   (["票", "售票", "购票", "验票", "选座位"], ticketModes),
   (["电梯", "升降机", "垂直运输"], elevatorModes),
   (["家居", "智能家居", "家庭自动化"], homeModes),
   (["农业", "温室", "大棚", "种植"], farmModes),
   (["停车场", "车库", "车位管理"], parkingModes),
   (["照明", "灯光", "路灯"], lightingModes)]

/-- `create_prompt(modules, theme, function)` (app.py 411–479): the
composed f-string, with each interpolation expanded into explicit
concatenation between the transcribed literal segments. -/
def create_prompt (modules : List String) (theme fn : String) : String :=
  let gen_info := _get_general_info modules theme fn
  let md := _get_mode_description theme
  promptSeg0 ++ gen_info.modules_desc ++ promptSeg1 ++ theme ++ promptSeg2 ++
    theme ++ promptSeg3 ++ fn ++ promptSeg4 ++ gen_info.motor_note ++
    promptSeg5 ++ gen_info.display_note ++ promptSeg6 ++ gen_info.timer_note ++
    promptSeg7 ++ gen_info.interrupt_note ++ promptSeg8 ++ theme ++
    promptSeg9 ++ md.1 ++ promptSeg10 ++ theme ++ promptSeg11 ++ md.2 ++
    promptSeg12

/-! ### Orchestration (app.py lines 482–533) -/

/-- The fixed system persona of `generate_project` (app.py 489). -/
def systemPersona : String :=
  "你是一名经验丰富的嵌入式系统工程师，擅长设计多模块硬件教学系统。"

/-- `generate_project(prompt, api_key)` (app.py 482–495).  The remote
call is abstracted by `backend`, a function from the outgoing dashscope
message list to the raw response; the second component counts how many
times the backend was invoked (0 or 1), so that "the adapter is never
called" is statable. -/
def generate_project (prompt api_key : String)
    (backend : List DMessage → Option QwenResponse) : String × Nat :=
  if api_key = "" then ("错误: 请先输入API密钥", 0)
  else
    let msgs := toDashscope [LCMessage.system systemPersona, LCMessage.human prompt]
    match qwenGenerate (backend msgs) with
    | .ok r => (r.content, 1)
    | .error e => ("生成失败: " ++ e, 1)

/-- What the button handler surfaces: `st.error` text or rendered
content. -/
inductive UiOutcome where
  | uiError (msg : String)
  | success (content : String)
deriving DecidableEq

/-- The `st.button` click handler (app.py 502–533): credential check,
empty-module check, then compose + generate; a result starting with
`错误:` or `生成失败:` is surfaced as an error, otherwise as content.
The invocation counter of `generate_project` is threaded through. -/
def buttonHandler (api_key : String) (modules : List String) (theme fn : String)
    (backend : List DMessage → Option QwenResponse) : UiOutcome × Nat :=
  if api_key = "" then (.uiError "请先输入API密钥", 0)
  else if modules = [] then (.uiError "请至少选择一个项目模块", 0)
  else
    let prompt := create_prompt modules theme fn
    let r := generate_project prompt api_key backend
    if r.1.startsWith "错误:" || r.1.startsWith "生成失败:" then (.uiError r.1, r.2)
    else (.success r.1, r.2)

/-- Number of occurrences of `pat` (at any starting position) inside a
character list; used to count the `n. **name**` mode headers of a
template. -/
def countOcc (pat : List Char) : List Char → Nat
  | [] => 0
  | b :: rest => (if hasPrefixL pat (b :: rest) then 1 else 0) + countOcc pat rest


/-- A backend output whose only extractable content is the empty string,
reached through the choices path. -/
def emptyChoiceOutput : QwenOutput :=
  { text := none, isDict := true,
    choices := some [{ message := some { content := some "" } }] }

/-- A status-200 response carrying `emptyChoiceOutput`. -/
def emptyChoiceResponse : QwenResponse :=
  { status_code := 200, message := none, output := some emptyChoiceOutput,
    usage := [] }

/-! ### General lemmas -/

set_option maxRecDepth 100000

theorem hasPrefixL_iff : ∀ (pat l : List Char), hasPrefixL pat l = true ↔ pat <+: l
  | [], l => by simp [hasPrefixL]
  | a :: pat, [] => by simp [hasPrefixL]
  | a :: pat, b :: l => by
    rw [List.cons_prefix_cons]
    simp [hasPrefixL, hasPrefixL_iff pat l]

theorem hasInfixL_iff : ∀ (pat l : List Char), hasInfixL pat l = true ↔ pat <:+: l
  | pat, [] => by cases pat <;> simp [hasInfixL, List.isEmpty]
  | pat, b :: l => by
    simp [hasInfixL, hasPrefixL_iff, hasInfixL_iff pat l, List.infix_cons_iff]

theorem pyInP_of_bool {kw s : String} (h : pyIn kw s = true) : pyInP kw s :=
  (hasInfixL_iff kw.data s.data).mp h

/-- A list is an infix of any list that starts with it. -/
theorem infix_headI {α : Type} {a rest : List α} : a <:+: a ++ rest :=
  ⟨[], rest, by simp⟩

/-- Skipping a leading block preserves infix-ness. -/
theorem infix_skip {α : Type} (x : List α) {a rest : List α}
    (h : a <:+: rest) : a <:+: x ++ rest := by
  obtain ⟨s, t, rfl⟩ := h
  exact ⟨x ++ s, t, by simp⟩


/-- The conversion loop of `toDashscope` equals the per-turn mapping over
the input list, for any already-accumulated output. -/
theorem toDashscope_loop (msgs : List LCMessage) (acc : List DMessage) :
    msgs.foldl (fun acc msg =>
      match msg with
      | .system c => acc ++ [⟨"system", c⟩]
      | .human c => acc ++ [⟨"user", c⟩]
      | .ai c => acc ++ [⟨"assistant", c⟩]
      | .other s => acc ++ [⟨"user", s⟩]) acc = acc ++ msgs.map convertMsg := by
  induction msgs generalizing acc with
  | nil => simp
  | cons m rest ih => cases m <;> simp [ih, convertMsg]

/-- The closing fixed segment (design constraints, pin table, key table
tail) is an infix of every composed prompt. -/
theorem promptSeg12_in_prompt (modules : List String) (theme fn : String) :
    promptSeg12.data <:+: (create_prompt modules theme fn).data := by
  simp only [create_prompt, String.data_append, List.append_assoc]
  repeat first
    | exact List.infix_refl _
    | exact infix_headI
    | apply infix_skip

/-- The fixed output-skeleton header segment (task title) is an infix of
every composed prompt. -/
theorem promptSeg8_in_prompt (modules : List String) (theme fn : String) :
    promptSeg8.data <:+: (create_prompt modules theme fn).data := by
  simp only [create_prompt, String.data_append, List.append_assoc]
  repeat first
    | exact List.infix_refl _
    | exact infix_headI
    | apply infix_skip

/-- The fixed key-table segment is an infix of every composed prompt. -/
theorem promptSeg9_in_prompt (modules : List String) (theme fn : String) :
    promptSeg9.data <:+: (create_prompt modules theme fn).data := by
  simp only [create_prompt, String.data_append, List.append_assoc]
  repeat first
    | exact List.infix_refl _
    | exact infix_headI
    | apply infix_skip

/-- The composed prompt is never the empty string, whatever the inputs. -/
theorem create_prompt_ne_empty (modules : List String) (theme fn : String) :
    create_prompt modules theme fn ≠ "" := by
  intro h
  have h12 := promptSeg12_in_prompt modules theme fn
  rw [h] at h12
  have hnil : promptSeg12.data = [] := by
    have : ("" : String).data = [] := rfl
    rw [this] at h12
    exact List.infix_nil.mp h12
  exact absurd hnil (by decide)

/-- Each note of `_get_general_info`, whatever its value, is interpolated
verbatim into the composed prompt. -/
theorem note_infix_prompt (modules : List String) (theme fn : String) :
    pyInP (_get_general_info modules theme fn).motor_note (create_prompt modules theme fn)
  ∧ pyInP (_get_general_info modules theme fn).display_note (create_prompt modules theme fn)
  ∧ pyInP (_get_general_info modules theme fn).timer_note (create_prompt modules theme fn)
  ∧ pyInP (_get_general_info modules theme fn).interrupt_note (create_prompt modules theme fn) := by
  refine ⟨?_, ?_, ?_, ?_⟩ <;>
  · simp only [pyInP, create_prompt, String.data_append, List.append_assoc]
    repeat first
      | exact List.infix_refl _
      | exact infix_headI
      | apply infix_skip

/-- The status-code error detail starts with "API Error (" (its fifth
character is E), so it can never coincide with the three fixed details. -/
theorem errStatus_ne (code : Nat) (msg : Option String) :
    errStatus code msg ≠ errNone ∧ errStatus code msg ≠ errNoOutput
    ∧ errStatus code msg ≠ errNoText := by
  have h4 : (errStatus code msg).data[4]? = some 'E' := by
    simp only [errStatus, String.data_append, List.append_assoc]
    rw [List.getElem?_append_left (by decide)]
    rfl
  refine ⟨?_, ?_, ?_⟩ <;>
  · intro h
    rw [h] at h4
    exact absurd h4 (by decide)

/-! ### C1 — response extraction -/

/-- C1 counterexample: the claim says the extractor raises whenever the
text it would return is empty, so that a success never carries an empty
string.  But on a response whose output exposes the choices shape with
`choices[0].message.content = ""`, the source sets `content = ""`, the
`content is None` guard does not fire, and the call succeeds with the
empty string. -/
theorem C1_counterexample :
    extractContent emptyChoiceOutput = some ""
    ∧ qwenGenerate (some emptyChoiceResponse) =
        Except.ok { content := "", token_usage := [], model_name := "qwen-plus" } :=
  ⟨rfl, rfl⟩

/-- C1 (amended): the extractor returns the direct text field when it is
present and non-empty; otherwise, under the choices shape, it returns
`choices[0].message.content` whatever that is — including the empty
string; the "no extractable text" failure is raised exactly when neither
path produced a value, and a success always returns exactly the extracted
content (which can be empty only via the choices path). -/
theorem C1_extractor_amended :
    (∀ (out : QwenOutput) (t : String), out.text = some t → t ≠ "" →
        extractContent out = some t)
  ∧ (∀ out : QwenOutput, (out.text = none ∨ out.text = some "") → out.isDict = true →
        ∀ (m : ChoiceMsg) (rest : List Choice),
          out.choices = some ({ message := some m } :: rest) →
          extractContent out = m.content)
  ∧ (∀ (r : QwenResponse) (out : QwenOutput),
        r.status_code = 200 → r.output = some out → extractContent out = none →
        qwenGenerate (some r) = .error (errEnvelope errNoText))
  ∧ (∀ (r : QwenResponse) (res : ChatResult),
        qwenGenerate (some r) = .ok res →
        ∃ out content, r.output = some out ∧ extractContent out = some content ∧
          res.content = content) := by
  refine ⟨?_, ?_, ?_, ?_⟩
  · intro out t ht hne
    simp [extractContent, ht, hne]
  · intro out hfail hdict m rest hch
    rcases hfail with h | h <;> simp [extractContent, h, hdict, hch]
  · intro r out h200 hout hext
    simp [qwenGenerate, generateBody, h200, hout, hext]
  · intro r res h
    by_cases hs : r.status_code ≠ 200
    · simp [qwenGenerate, generateBody, hs] at h
    · cases hout : r.output with
      | none => simp [qwenGenerate, generateBody, hs, hout] at h
      | some out =>
        cases hext : extractContent out with
        | none => simp [qwenGenerate, generateBody, hs, hout, hext] at h
        | some content =>
          simp only [qwenGenerate, generateBody, hs, hout, hext, ite_false,
            ne_eq, not_false_eq_true, not_true_eq_false, if_false] at h
          exact ⟨out, content, rfl, hext, by cases h; rfl⟩

/-- C1 witness: the amended theorem applied to three concrete responses —
direct text, choices content, and an unextractable output. -/
theorem C1_extractor_amended_witness :
    extractContent ⟨some "hello", false, none⟩ = some "hello"
  ∧ extractContent ⟨none, true, some [⟨some ⟨some "hi"⟩⟩]⟩ = some "hi"
  ∧ qwenGenerate (some ⟨200, none, some ⟨none, false, none⟩, []⟩) =
      .error (errEnvelope errNoText) :=
  ⟨C1_extractor_amended.1 _ "hello" rfl (by decide),
   C1_extractor_amended.2.1 _ (Or.inl rfl) rfl _ _ rfl,
   C1_extractor_amended.2.2.1 _ _ rfl rfl rfl⟩

/-! ### C2 — scenario 3 (modules 电机+显示屏, theme 智能灌溉) -/

/-- C2 counterexample: the claim says the mode selector classifies
theme 智能灌溉 into the agriculture category because 灌溉 is a matched
keyword.  In the source the agriculture keyword set is
农业/温室/大棚/种植 — 灌溉 is not among them, no category matches, and
the selector returns the generic fallback, which differs from the
agriculture template. -/
theorem C2_counterexample :
    _get_mode_description "智能灌溉" = defaultModes
    ∧ anyKw ["农业", "温室", "大棚", "种植"] "智能灌溉" = false
    ∧ (defaultModes.1 == farmModes.1) = false :=
  ⟨by decide, by rfl, by rfl⟩

/-- C2 (amended): for modules [电机, 显示屏] and theme 智能灌溉 the
composed prompt does contain the motor simple-voltage note and the
display note, but the mode selector returns the generic two-mode fallback
template: 灌溉 is not a dispatch keyword (it only occurs inside the body
of the agriculture template). -/
theorem C2_scenario3_amended :
    pyIn motorNote (create_prompt ["电机", "显示屏"] "智能灌溉" "自动启停") = true
    ∧ pyIn displayNote (create_prompt ["电机", "显示屏"] "智能灌溉" "自动启停") = true
    ∧ _get_mode_description "智能灌溉" = defaultModes
    ∧ pyIn "灌溉" farmModes.1 = true :=
  ⟨by rfl, by rfl, by decide, by rfl⟩

/-! ### C3 — conditional notes -/

/-- C3 counterexample: the claim lists five conditional notes, one of
them an external-communication note triggered by 串口通信.  Selecting
exactly 串口通信 leaves every note of the returned mapping empty — the
mapping has exactly four note keys and none reacts to 串口通信; no
serial/USB note exists in the source. -/
theorem C3_counterexample :
    _get_general_info ["串口通信"] "智能流水线" "自动启停" =
      { modules_desc := "串口通信", motor_note := "", display_note := "",
        timer_note := "", interrupt_note := "" } := by rfl

/-- C3 (amended): the prompt composer emits each of four conditional
notes — motor, display, timer, external-interrupt — exactly when the
triggering module (电机, 显示屏, 定时器, 外部中断 respectively) is a
member of the module set, and renders the empty string for each note
whose trigger is absent; each note slot is always interpolated into the
composed prompt (blank when absent, never a crash or missing key), and
each triggered note is non-empty.  There is no external-communication
(串口通信) note. -/
theorem C3_conditional_notes_amended :
    ∀ (modules : List String) (theme fn : String),
      (("电机" ∈ modules → (_get_general_info modules theme fn).motor_note = motorNote)
        ∧ ("电机" ∉ modules → (_get_general_info modules theme fn).motor_note = ""))
    ∧ (("显示屏" ∈ modules → (_get_general_info modules theme fn).display_note = displayNote)
        ∧ ("显示屏" ∉ modules → (_get_general_info modules theme fn).display_note = ""))
    ∧ (("定时器" ∈ modules → (_get_general_info modules theme fn).timer_note = timerNote)
        ∧ ("定时器" ∉ modules → (_get_general_info modules theme fn).timer_note = ""))
    ∧ (("外部中断" ∈ modules → (_get_general_info modules theme fn).interrupt_note = interruptNote)
        ∧ ("外部中断" ∉ modules → (_get_general_info modules theme fn).interrupt_note = ""))
    ∧ (pyInP (_get_general_info modules theme fn).motor_note (create_prompt modules theme fn)
        ∧ pyInP (_get_general_info modules theme fn).display_note (create_prompt modules theme fn)
        ∧ pyInP (_get_general_info modules theme fn).timer_note (create_prompt modules theme fn)
        ∧ pyInP (_get_general_info modules theme fn).interrupt_note (create_prompt modules theme fn))
    ∧ (motorNote ≠ "" ∧ displayNote ≠ "" ∧ timerNote ≠ "" ∧ interruptNote ≠ "") := by
  intro modules theme fn
  have toggle : ∀ (trig note : String),
      (trig ∈ modules → (if trig ∈ modules then note else "") = note)
      ∧ (trig ∉ modules → (if trig ∈ modules then note else "") = "") :=
    fun trig note => ⟨fun h => if_pos h, fun h => if_neg h⟩
  exact ⟨toggle "电机" motorNote, toggle "显示屏" displayNote,
    toggle "定时器" timerNote, toggle "外部中断" interruptNote,
    note_infix_prompt modules theme fn,
    by decide, by decide, by decide, by decide⟩

/-- C3 witness: the amended theorem applied with all four trigger modules
selected, and with none selected. -/
theorem C3_conditional_notes_amended_witness :
    (_get_general_info ["电机", "显示屏", "定时器", "外部中断"] "智能流水线" "自动启停").motor_note = motorNote
  ∧ (_get_general_info ["电机", "显示屏", "定时器", "外部中断"] "智能流水线" "自动启停").display_note = displayNote
  ∧ (_get_general_info ["电机", "显示屏", "定时器", "外部中断"] "智能流水线" "自动启停").timer_note = timerNote
  ∧ (_get_general_info ["电机", "显示屏", "定时器", "外部中断"] "智能流水线" "自动启停").interrupt_note = interruptNote
  ∧ (_get_general_info ["显示屏"] "智能流水线" "自动启停").motor_note = "" :=
  ⟨(C3_conditional_notes_amended _ _ _).1.1 (by decide),
   (C3_conditional_notes_amended _ _ _).2.1.1 (by decide),
   (C3_conditional_notes_amended _ _ _).2.2.1.1 (by decide),
   (C3_conditional_notes_amended _ _ _).2.2.2.1.1 (by decide),
   (C3_conditional_notes_amended _ _ _).1.2 (by decide)⟩

/-! ### C4 — pre-flight validation -/

/-- C4: the credential and module-set checks run before anything else and
short-circuit without invoking the adapter: with an empty credential
`generate_project` returns the literal 错误:-prefixed string and the
backend-invocation count is 0; with an empty module set the click handler
surfaces the "select at least one module" string with count 0; in every
validation-failure case the count is 0. -/
theorem C4_preflight_validation :
    (∀ (prompt : String) (backend : List DMessage → Option QwenResponse),
        generate_project prompt "" backend = ("错误: 请先输入API密钥", 0))
  ∧ hasPrefixL "错误:".data "错误: 请先输入API密钥".data = true
  ∧ (∀ (api_key theme fn : String) (backend : List DMessage → Option QwenResponse),
        api_key ≠ "" →
        buttonHandler api_key [] theme fn backend =
          (.uiError "请至少选择一个项目模块", 0))
  ∧ (∀ (api_key : String) (modules : List String) (theme fn : String)
        (backend : List DMessage → Option QwenResponse),
        api_key = "" ∨ modules = [] →
        (buttonHandler api_key modules theme fn backend).2 = 0) := by
  refine ⟨fun prompt backend => rfl, by rfl, ?_, ?_⟩
  · intro api_key theme fn backend h
    simp [buttonHandler, h]
  · intro api_key modules theme fn backend h
    rcases h with h | h
    · simp [buttonHandler, h]
    · subst h
      by_cases ha : api_key = "" <;> simp [buttonHandler, ha]

/-- C4 witness: the validation conjuncts applied at concrete inputs. -/
theorem C4_preflight_validation_witness :
    buttonHandler "sk-test" [] "智能流水线" "自动启停" (fun _ => none) =
      (.uiError "请至少选择一个项目模块", 0)
  ∧ (buttonHandler "" ["显示屏"] "智能流水线" "自动启停" (fun _ => none)).2 = 0 :=
  ⟨C4_preflight_validation.2.2.1 "sk-test" _ _ _ (by decide),
   C4_preflight_validation.2.2.2 "" ["显示屏"] _ _ _ (Or.inl rfl)⟩

/-! ### C5 — keyword dispatch of the mode selector -/

/-- C5: for every theme the if/elif dispatch equals a first-match lookup
over the ordered category table (line/conveyor, rotating/washing,
ticketing, elevator, smart-home, agriculture, parking, lighting), with
the generic fallback when no keyword matches; the fallback has exactly
two `n. **...**` mode headers (manual and automatic), and the selector
always returns one of the nine fixed, non-empty templates. -/
theorem C5_first_match_dispatch :
    (∀ theme, _get_mode_description theme =
        (((modeCategories.find? (fun p => anyKw p.1 theme)).map Prod.snd).getD
          defaultModes))
  ∧ countOcc ". **".data defaultModes.1.data = 2
  ∧ pyIn "手动模式" defaultModes.1 = true
  ∧ pyIn "自动模式" defaultModes.1 = true
  ∧ (∀ theme, _get_mode_description theme ∈
        [lineModes, washModes, ticketModes, elevatorModes, homeModes,
         farmModes, parkingModes, lightingModes, defaultModes])
  ∧ (∀ p ∈ [lineModes, washModes, ticketModes, elevatorModes, homeModes,
         farmModes, parkingModes, lightingModes, defaultModes],
        p.1 ≠ "" ∧ p.2 ≠ "") := by
  refine ⟨?_, by rfl, by rfl, by rfl, ?_, by decide⟩
  · intro theme
    unfold _get_mode_description modeCategories
    simp only [List.find?]
    cases anyKw ["流水线", "传送带", "生产线", "装配线"] theme <;>
      cases anyKw ["洗衣机", "搅拌机", "旋转设备", "脱水机"] theme <;>
      cases anyKw ["票", "售票", "购票", "验票", "选座位"] theme <;>
      cases anyKw ["电梯", "升降机", "垂直运输"] theme <;>
      cases anyKw ["家居", "智能家居", "家庭自动化"] theme <;>
      cases anyKw ["农业", "温室", "大棚", "种植"] theme <;>
      cases anyKw ["停车场", "车库", "车位管理"] theme <;>
      cases anyKw ["照明", "灯光", "路灯"] theme <;>
      rfl
  · intro theme
    unfold _get_mode_description
    split_ifs <;> simp

/-- C5 witness: dispatch evaluated on a two-category theme (流水线 before
照明 in list order), a no-match theme, and the non-emptiness fact applied
to the fallback template. -/
theorem C5_first_match_dispatch_witness :
    _get_mode_description "照明流水线" = lineModes
  ∧ _get_mode_description "智能灌溉" ∈
      [lineModes, washModes, ticketModes, elevatorModes, homeModes,
       farmModes, parkingModes, lightingModes, defaultModes]
  ∧ defaultModes.1 ≠ "" ∧ defaultModes.2 ≠ "" :=
  ⟨by rw [C5_first_match_dispatch.1 "照明流水线"]; rfl,
   C5_first_match_dispatch.2.2.2.2.1 "智能灌溉",
   (C5_first_match_dispatch.2.2.2.2.2 defaultModes (by simp)).1,
   (C5_first_match_dispatch.2.2.2.2.2 defaultModes (by simp)).2⟩

/-! ### C6 — failure taxonomy and the one error envelope -/

/-- C6: every adapter failure is wrapped in the single
调用 Qwen 模型时发生错误: envelope; the four failure kinds (no response,
non-success status, missing output, unextractable text) produce their
four distinct detail messages, and the status-error detail carries both
the status code and the backend-supplied message. -/
theorem C6_failure_envelope :
    (∀ (resp : Option QwenResponse) (s : String),
        qwenGenerate resp = .error s → ∃ detail, s = errEnvelope detail)
  ∧ qwenGenerate none = .error (errEnvelope errNone)
  ∧ (∀ r : QwenResponse, r.status_code ≠ 200 →
        qwenGenerate (some r) =
          .error (errEnvelope (errStatus r.status_code r.message))
        ∧ pyInP (toString r.status_code) (errStatus r.status_code r.message)
        ∧ pyInP (r.message.getD "Unknown error") (errStatus r.status_code r.message))
  ∧ (∀ r : QwenResponse, r.status_code = 200 → r.output = none →
        qwenGenerate (some r) = .error (errEnvelope errNoOutput))
  ∧ (∀ (r : QwenResponse) (out : QwenOutput), r.status_code = 200 →
        r.output = some out → extractContent out = none →
        qwenGenerate (some r) = .error (errEnvelope errNoText))
  ∧ (errNone ≠ errNoOutput ∧ errNone ≠ errNoText ∧ errNoOutput ≠ errNoText)
  ∧ (∀ (code : Nat) (msg : Option String), errStatus code msg ≠ errNone
        ∧ errStatus code msg ≠ errNoOutput ∧ errStatus code msg ≠ errNoText) := by
  refine ⟨?_, by rfl, ?_, ?_, ?_, ⟨by decide, by decide, by decide⟩, errStatus_ne⟩
  · intro resp s h
    unfold qwenGenerate at h
    cases hb : generateBody resp with
    | error e =>
      rw [hb] at h
      simp only [Except.error.injEq] at h
      exact ⟨e, h.symm⟩
    | ok v => rw [hb] at h; exact absurd h (by simp)
  · intro r hs
    refine ⟨by simp [qwenGenerate, generateBody, hs], ?_, ?_⟩
    · simp only [pyInP, errStatus, String.data_append, List.append_assoc]
      exact infix_skip _ infix_headI
    · simp only [pyInP, errStatus, String.data_append, List.append_assoc]
      exact infix_skip _ (infix_skip _ (infix_skip _ (List.infix_refl _)))
  · intro r h200 hout
    simp [qwenGenerate, generateBody, h200, hout]
  · intro r out h200 hout hext
    simp [qwenGenerate, generateBody, h200, hout, hext]

/-- C6 witness: the envelope and the four failure kinds exercised on
concrete responses. -/
theorem C6_failure_envelope_witness :
    (∃ detail, errEnvelope errNone = errEnvelope detail)
  ∧ qwenGenerate (some ⟨500, some "server busy", none, []⟩) =
      .error (errEnvelope (errStatus 500 (some "server busy")))
  ∧ pyInP (toString 500) (errStatus 500 (some "server busy"))
  ∧ pyInP ((some "server busy").getD "Unknown error") (errStatus 500 (some "server busy"))
  ∧ qwenGenerate (some ⟨200, none, none, []⟩) = .error (errEnvelope errNoOutput)
  ∧ qwenGenerate (some ⟨200, none, some ⟨none, true, some []⟩, []⟩) =
      .error (errEnvelope errNoText)
  ∧ errStatus 404 none ≠ errNone :=
  ⟨C6_failure_envelope.1 none (errEnvelope errNone) rfl,
   (C6_failure_envelope.2.2.1 ⟨500, some "server busy", none, []⟩ (by decide)).1,
   (C6_failure_envelope.2.2.1 ⟨500, some "server busy", none, []⟩ (by decide)).2.1,
   (C6_failure_envelope.2.2.1 ⟨500, some "server busy", none, []⟩ (by decide)).2.2,
   C6_failure_envelope.2.2.2.1 ⟨200, none, none, []⟩ rfl rfl,
   C6_failure_envelope.2.2.2.2.1 ⟨200, none, some ⟨none, true, some []⟩, []⟩ _ rfl rfl rfl,
   (C6_failure_envelope.2.2.2.2.2.2 404 none).1⟩

/-! ### C7 — fixed hardware identifiers in the prompt -/

/-- C7: every composed prompt contains the literal fixed button and LED
identifiers KEY0, KEY1, KEY_UP, LED0, LED1; the "no display pins"
directive is present whenever the display module is selected (the design
constraint block carries it unconditionally); and the composer output is
non-empty whenever the module set is non-empty. -/
theorem C7_fixed_identifiers :
    ∀ (modules : List String) (theme fn : String),
      pyInP "KEY0" (create_prompt modules theme fn)
    ∧ pyInP "KEY1" (create_prompt modules theme fn)
    ∧ pyInP "KEY_UP" (create_prompt modules theme fn)
    ∧ pyInP "LED0" (create_prompt modules theme fn)
    ∧ pyInP "LED1" (create_prompt modules theme fn)
    ∧ ("显示屏" ∈ modules →
        pyInP "硬件引脚分配不包含显示屏相关引脚" (create_prompt modules theme fn))
    ∧ (modules ≠ [] → create_prompt modules theme fn ≠ "") := by
  intro modules theme fn
  have h12 := promptSeg12_in_prompt modules theme fn
  exact ⟨(pyInP_of_bool (by rfl)).trans h12, (pyInP_of_bool (by rfl)).trans h12,
    (pyInP_of_bool (by rfl)).trans h12, (pyInP_of_bool (by rfl)).trans h12,
    (pyInP_of_bool (by rfl)).trans h12,
    fun _ => (pyInP_of_bool (by rfl)).trans h12,
    fun _ => create_prompt_ne_empty modules theme fn⟩

/-- C7 witness: the display-directive and non-emptiness conjuncts applied
with the display module selected. -/
theorem C7_fixed_identifiers_witness :
    pyInP "硬件引脚分配不包含显示屏相关引脚"
      (create_prompt ["显示屏"] "智能流水线" "自动启停")
  ∧ create_prompt ["显示屏"] "智能流水线" "自动启停" ≠ "" :=
  ⟨(C7_fixed_identifiers ["显示屏"] "智能流水线" "自动启停").2.2.2.2.2.1 (by decide),
   (C7_fixed_identifiers ["显示屏"] "智能流水线" "自动启停").2.2.2.2.2.2 (by decide)⟩

/-! ### C8 — turn mapping of the adapter -/

/-- C8: the adapter maps system turns to role "system", user turns to
"user", assistant turns to "assistant", coerces any other turn kind to
"user" with its stringified text, drops no turn, and preserves the
original order — the loop equals an order-preserving per-turn map. -/
theorem C8_turn_mapping :
    (∀ msgs : List LCMessage, toDashscope msgs = msgs.map convertMsg)
  ∧ (∀ msgs : List LCMessage, (toDashscope msgs).length = msgs.length)
  ∧ (∀ c, convertMsg (.system c) = ⟨"system", c⟩)
  ∧ (∀ c, convertMsg (.human c) = ⟨"user", c⟩)
  ∧ (∀ c, convertMsg (.ai c) = ⟨"assistant", c⟩)
  ∧ (∀ s, convertMsg (.other s) = ⟨"user", s⟩) := by
  have h : ∀ msgs : List LCMessage, toDashscope msgs = msgs.map convertMsg := by
    intro msgs
    unfold toDashscope
    simpa using toDashscope_loop msgs []
  exact ⟨h, fun msgs => by rw [h, List.length_map], fun c => rfl, fun c => rfl,
    fun c => rfl, fun s => rfl⟩

/-! ### C9 — determinism of the composer -/

/-- C9: the prompt composer is a pure deterministic function — two calls
on identical modules, theme and function inputs yield identical output
strings. -/
theorem C9_compose_deterministic :
    ∀ (m₁ m₂ : List String) (t₁ t₂ f₁ f₂ : String),
      m₁ = m₂ → t₁ = t₂ → f₁ = f₂ →
      create_prompt m₁ t₁ f₁ = create_prompt m₂ t₂ f₂ := by
  intro m₁ m₂ t₁ t₂ f₁ f₂ hm ht hf
  rw [hm, ht, hf]

/-- C9 witness: the determinism theorem applied at a concrete input. -/
theorem C9_compose_deterministic_witness :
    create_prompt ["显示屏"] "智能流水线" "自动启停" =
      create_prompt ["显示屏"] "智能流水线" "自动启停" :=
  C9_compose_deterministic ["显示屏"] ["显示屏"] "智能流水线" "智能流水线"
    "自动启停" "自动启停" rfl rfl rfl

/-! ### C10 — empty module set -/

/-- C10 counterexample: the claim speaks of five conditional notes.  The
general-info mapping has exactly four note slots; adding 串口通信 to a
module set changes nothing but the joined module description — no fifth
(external-communication) note exists to render. -/
theorem C10_counterexample :
    _get_general_info ["电机", "串口通信"] "智能流水线" "自动启停" =
      { modules_desc := "电机、串口通信", motor_note := motorNote,
        display_note := "", timer_note := "", interrupt_note := "" }
    ∧ _get_general_info ["电机"] "智能流水线" "自动启停" =
      { modules_desc := "电机", motor_note := motorNote,
        display_note := "", timer_note := "", interrupt_note := "" } :=
  ⟨by rfl, by rfl⟩

/-- C10 (amended): for every modules list including the empty list, and
arbitrary theme and function strings, composition returns normally with a
non-empty string; with an empty module set the module-description slot
and all four conditional notes render as empty strings and the fixed
skeleton (task-title header, key table, pin-table header, design
constraints) is still produced — the composer itself never rejects an
empty module set. -/
theorem C10_empty_modules_amended :
    ∀ (theme fn : String),
      _get_general_info [] theme fn =
        { modules_desc := "", motor_note := "", display_note := "",
          timer_note := "", interrupt_note := "" }
    ∧ create_prompt [] theme fn ≠ ""
    ∧ pyInP "##### 一、任务题目" (create_prompt [] theme fn)
    ∧ pyInP "##### 三、按键功能" (create_prompt [] theme fn)
    ∧ pyInP "##### 六、硬件引脚分配" (create_prompt [] theme fn)
    ∧ pyInP "**设计约束：**" (create_prompt [] theme fn)
    ∧ (∀ modules : List String, create_prompt modules theme fn ≠ "") := by
  intro theme fn
  exact ⟨rfl, create_prompt_ne_empty [] theme fn,
    (pyInP_of_bool (by rfl)).trans (promptSeg8_in_prompt [] theme fn),
    (pyInP_of_bool (by rfl)).trans (promptSeg9_in_prompt [] theme fn),
    (pyInP_of_bool (by rfl)).trans (promptSeg12_in_prompt [] theme fn),
    (pyInP_of_bool (by rfl)).trans (promptSeg12_in_prompt [] theme fn),
    fun modules => create_prompt_ne_empty modules theme fn⟩

/-- C10 witness: the amended theorem evaluated at concrete theme and
function text. -/
theorem C10_empty_modules_amended_witness :
    create_prompt [] "智能流水线" "自动启停" ≠ ""
  ∧ _get_general_info [] "智能流水线" "自动启停" =
      { modules_desc := "", motor_note := "", display_note := "",
        timer_note := "", interrupt_note := "" } :=
  ⟨(C10_empty_modules_amended "智能流水线" "自动启停").2.1,
   (C10_empty_modules_amended "智能流水线" "自动启停").1⟩

end XMCS
